import Mathlib

/-!
Verification of the client-side list pipeline and form logic of the
afternoon-epaper frontend: the debounced search filter (`useSearch`), the
pagination widget (`PaginationWithText`), the spec's paginator contract
(`usePagination`, whose source is not in the snapshot), the per-row
permission predicate (`canEditUser`), the page viewer navigation
(`PublicLandingPage` / `EpaperView`), the user-form validation
(`UserRegister`), and the asynchronous load paths.

JavaScript strings are embedded as `List Char`; JavaScript numbers that
are used integrally are embedded as `Int` (or `Nat` where the source can
only produce non-negative values).
-/

/-- A JavaScript string, embedded as its character list. -/
abbrev Str := List Char

/-- Embedding of `String.prototype.toLowerCase()`. -/
def lowerStr (s : Str) : Str := s.map Char.toLower

/-- Embedding of `String.prototype.trim()`: strip whitespace from both ends. -/
def strTrim (s : Str) : Str :=
  ((s.dropWhile Char.isWhitespace).reverse.dropWhile Char.isWhitespace).reverse

/-- Embedding of `s.includes(q)`: `q` occurs contiguously inside `s`. -/
def jsIncludes (s q : Str) : Bool := decide (q <:+: s)

/-- A field value of a record as seen by `useSearch`: `typeof value === "string"`
either holds (with the string) or does not (any non-string value). -/
inductive FieldValue where
  | str (s : Str)
  | nonString
deriving DecidableEq

/-- A record (a JavaScript object) restricted to its searchable surface:
an association from field keys to field values.  Keys are embedded as `Nat`. -/
abbrev SearchRecord := List (Nat × FieldValue)

/-- Embedding of the property access `item[field]`: a missing key yields
`undefined`, which is not a string. -/
def getField (item : SearchRecord) (f : Nat) : FieldValue :=
  match item.lookup f with
  | some v => v
  | none => FieldValue.nonString

/-- Embedding of the per-field test in `useSearch` (src/unnamed/part_001
lines 38-44): `typeof value === "string" && value.toLowerCase().includes(query)`,
where `query` is the already-lowercased debounced query. -/
def fieldMatches (query : Str) (v : FieldValue) : Bool :=
  match v with
  | FieldValue.str s => jsIncludes (lowerStr s) query
  | FieldValue.nonString => false

/-- Embedding of the `filteredData` memo of `useSearch` (src/unnamed/part_001
lines 32-46): an empty-after-trim query returns `data` unchanged; otherwise
keep the records for which some search field matches the lowercased query. -/
def filteredData (searchFields : List Nat) (debouncedQuery : Str)
    (data : List SearchRecord) : List SearchRecord :=
  if (strTrim debouncedQuery).isEmpty then data
  else
    let query := lowerStr debouncedQuery
    data.filter (fun item => searchFields.any (fun f => fieldMatches query (getField item f)))

/-- The spec's match predicate, stated from its words: at least one selected
field holds a string whose lowercase form contains the lowercase query as a
substring; a non-string field value never matches. -/
def SpecFieldMatch (q : Str) (v : FieldValue) : Prop :=
  match v with
  | FieldValue.str s => lowerStr q <:+: lowerStr s
  | FieldValue.nonString => False

instance (q : Str) (v : FieldValue) : Decidable (SpecFieldMatch q v) := by
  unfold SpecFieldMatch
  cases v with
  | str s => exact inferInstance
  | nonString => exact inferInstance

/-- The spec's record-level predicate: at least one field of `fields` matches. -/
def SpecMatch (fields : List Nat) (q : Str) (item : SearchRecord) : Prop :=
  ∃ f ∈ fields, SpecFieldMatch q (getField item f)

instance (fields : List Nat) (q : Str) (item : SearchRecord) :
    Decidable (SpecMatch fields q item) :=
  List.decidableBEx _ fields

theorem fieldMatches_iff (q : Str) (v : FieldValue) :
    fieldMatches (lowerStr q) v = true ↔ SpecFieldMatch q v := by
  cases v with
  | str s => simp [fieldMatches, jsIncludes, SpecFieldMatch]
  | nonString => simp [fieldMatches, SpecFieldMatch]

theorem filteredData_eq_filter (fields : List Nat) (q : Str)
    (data : List SearchRecord) (h : ¬ (strTrim q).isEmpty) :
    filteredData fields q data
      = data.filter (fun item => decide (SpecMatch fields q item)) := by
  unfold filteredData
  rw [if_neg h]
  refine List.filter_congr (fun item _ => ?_)
  rw [Bool.eq_iff_iff]
  simp only [List.any_eq_true, decide_eq_true_eq]
  unfold SpecMatch
  constructor
  · rintro ⟨f, hf, hmatch⟩
    exact ⟨f, hf, (fieldMatches_iff q _).mp hmatch⟩
  · rintro ⟨f, hf, hmatch⟩
    exact ⟨f, hf, (fieldMatches_iff q _).mpr hmatch⟩

/-- Sample record with name "Draft Edition" and status "published"
(field key 0 = name, 1 = status). -/
def recDraft : SearchRecord :=
  [(0, FieldValue.str "Draft Edition".toList), (1, FieldValue.str "published".toList)]

/-- Sample record with name "Final" and status "archived". -/
def recFinal : SearchRecord :=
  [(0, FieldValue.str "Final".toList), (1, FieldValue.str "archived".toList)]

/-- C1: for every list of records, set of field selectors and query, an
empty-or-whitespace query returns the list unchanged, and otherwise the
result is exactly the order-preserving sublist of records for which at
least one selected field holds a string whose lowercase form contains the
lowercase query as a substring (non-string values never match). -/
theorem useSearch_filter_correct (fields : List Nat) (q : Str)
    (data : List SearchRecord) :
    ((strTrim q).isEmpty = true → filteredData fields q data = data)
    ∧ ((strTrim q).isEmpty = false →
        (filteredData fields q data).Sublist data
        ∧ filteredData fields q data
            = data.filter (fun item => decide (SpecMatch fields q item))) := by
  constructor
  · intro h
    simp [filteredData, h]
  · intro h
    have hq : ¬ (strTrim q).isEmpty := by simp [h]
    refine ⟨?_, filteredData_eq_filter fields q data hq⟩
    rw [filteredData_eq_filter fields q data hq]
    exact List.filter_sublist data

/-- Witness for C1 at the spec's own scenario: query "draft" over fields
[name, status] keeps "Draft Edition"/"published" and drops "Final"/"archived". -/
theorem useSearch_filter_correct_witness :
    (strTrim "draft".toList).isEmpty = false
    ∧ filteredData [0, 1] "draft".toList [recDraft, recFinal]
        = [recDraft, recFinal].filter
            (fun item => decide (SpecMatch [0, 1] "draft".toList item))
    ∧ filteredData [0, 1] "draft".toList [recDraft, recFinal] = [recDraft] :=
  ⟨by decide,
   ((useSearch_filter_correct [0, 1] "draft".toList [recDraft, recFinal]).2
      (by decide)).2,
   by decide⟩

/-- C10: a query with at least one non-whitespace character is used verbatim
after lowercasing — no trimming — so leading/trailing whitespace in the query
must literally occur inside a field's lowercase value; concretely, the query
" a" does not match a record whose field is "a" but does match one whose
field is "b a". -/
theorem useSearch_query_verbatim (fields : List Nat) (q : Str)
    (item : SearchRecord) (h : (strTrim q).isEmpty = false) :
    (item ∈ filteredData fields q [item] ↔ SpecMatch fields q item)
    ∧ filteredData [0] [' ', 'a']
        [[(0, FieldValue.str ['a'])], [(0, FieldValue.str ['b', ' ', 'a'])]]
        = [[(0, FieldValue.str ['b', ' ', 'a'])]] := by
  constructor
  · rw [filteredData_eq_filter fields q [item] (by simp [h])]
    simp [List.mem_filter]
  · decide

/-- Witness for C10: instantiated at the query " a" and the record whose
single field is "a" (the query's whitespace is not in the field, so no match). -/
theorem useSearch_query_verbatim_witness :
    (strTrim [' ', 'a']).isEmpty = false
    ∧ (¬ SpecMatch [0] [' ', 'a'] [(0, FieldValue.str ['a'])]
        → [(0, FieldValue.str ['a'])]
            ∉ filteredData [0] [' ', 'a'] [[(0, FieldValue.str ['a'])]]) :=
  ⟨by decide,
   fun hn hm =>
     hn ((useSearch_query_verbatim [0] [' ', 'a'] [(0, FieldValue.str ['a'])]
       (by decide)).1.mp hm)⟩

/-- Modelled from the spec: the `usePagination` hook is imported by
UserList.tsx and EpaperList.tsx from src/components/ui/pagination/usePagination
but its source file is absent from the snapshot.  Per spec section 4.2 it
derives `totalPages = max(1, ceil(length / itemsPerPage))`. -/
def totalPagesOf (length itemsPerPage : Nat) : Nat :=
  max 1 ((length + itemsPerPage - 1) / itemsPerPage)

/-- Modelled from the spec: on every recomputation the paginator clamps the
previous `currentPage` back into `[1, totalPages]` when the list shrank
(a pure function of list length, page size and previous page). -/
def recomputePage (prevPage totalPages : Nat) : Nat := min prevPage totalPages

/-- Modelled from the spec: the public page-change operation silently rejects
targets outside `[1, totalPages]`, retaining the prior valid page. -/
def setCurrentPageOp (prevPage target totalPages : Nat) : Nat :=
  if 1 ≤ target ∧ target ≤ totalPages then target else prevPage

/-- C2: the paginator's window always satisfies
`1 ≤ currentPage ≤ max(1, totalPages)`: the recomputation clamps a stale
page back to `totalPages` whenever the list shrank past it (in particular
page 5 becomes page 2 when only 2 pages remain), and the page-change
operation preserves the invariant. -/
theorem usePagination_invariant (length itemsPerPage prevPage target : Nat)
    (hprev : 1 ≤ prevPage) :
    (1 ≤ recomputePage prevPage (totalPagesOf length itemsPerPage)
      ∧ recomputePage prevPage (totalPagesOf length itemsPerPage)
          ≤ max 1 (totalPagesOf length itemsPerPage))
    ∧ (totalPagesOf length itemsPerPage < prevPage →
        recomputePage prevPage (totalPagesOf length itemsPerPage)
          = totalPagesOf length itemsPerPage)
    ∧ (prevPage ≤ max 1 (totalPagesOf length itemsPerPage) →
        1 ≤ setCurrentPageOp prevPage target (totalPagesOf length itemsPerPage)
        ∧ setCurrentPageOp prevPage target (totalPagesOf length itemsPerPage)
            ≤ max 1 (totalPagesOf length itemsPerPage))
    ∧ recomputePage 5 (totalPagesOf 15 10) = 2 := by
  have ht : 1 ≤ totalPagesOf length itemsPerPage := Nat.le_max_left _ _
  refine ⟨⟨?_, ?_⟩, ?_, ?_, ?_⟩
  · unfold recomputePage; omega
  · unfold recomputePage; omega
  · intro h; unfold recomputePage; omega
  · intro h
    unfold setCurrentPageOp
    split
    · omega
    · omega
  · decide

/-- Witness for C2 at a concrete shrink: previous page 5, the filtered list
shrinks to 15 items at 10 per page, so 2 pages remain and the derived page
is clamped to 2. -/
theorem usePagination_invariant_witness :
    1 ≤ (5 : Nat)
    ∧ recomputePage 5 (totalPagesOf 15 10) = 2
    ∧ recomputePage 5 (totalPagesOf 15 10) = totalPagesOf 15 10 :=
  ⟨by decide,
   (usePagination_invariant 15 10 5 1 (by decide)).2.2.2,
   (usePagination_invariant 15 10 5 1 (by decide)).2.1 (by decide)⟩

/-- Embedding of `startItem` in PaginationWithText.tsx line 20. -/
def startItem (currentPage itemsPerPage totalItems : Int) : Int :=
  min ((currentPage - 1) * itemsPerPage + 1) totalItems

/-- Embedding of `endItem` in PaginationWithText.tsx line 21. -/
def endItem (currentPage itemsPerPage totalItems : Int) : Int :=
  min (currentPage * itemsPerPage) totalItems

/-- Embedding of the rendered "Showing X to Y of Z" summary of
PaginationWithText.tsx: line 56 returns `null` when `totalItems === 0`,
otherwise the component renders the pair (startItem, endItem). -/
def paginationSummary (currentPage itemsPerPage totalItems : Int) :
    Option (Int × Int) :=
  if totalItems = 0 then none
  else some (startItem currentPage itemsPerPage totalItems,
             endItem currentPage itemsPerPage totalItems)

/-- C4: the summary is `start = min((currentPage-1)*itemsPerPage+1, Z)` and
`end = min(currentPage*itemsPerPage, Z)`, and with `Z = 0` the component
renders nothing at all. -/
theorem pagination_summary_correct (currentPage itemsPerPage totalItems : Int) :
    (totalItems = 0 → paginationSummary currentPage itemsPerPage totalItems = none)
    ∧ (totalItems ≠ 0 →
        paginationSummary currentPage itemsPerPage totalItems
          = some (min ((currentPage - 1) * itemsPerPage + 1) totalItems,
                  min (currentPage * itemsPerPage) totalItems)) := by
  constructor
  · intro h
    simp [paginationSummary, h]
  · intro h
    simp [paginationSummary, startItem, endItem, h]

/-- Witness for C4 at the spec scenario "Showing 11 to 12 of 12" (page 2,
10 per page, 12 items) and at an empty list. -/
theorem pagination_summary_correct_witness :
    paginationSummary 2 10 12 = some (min ((2 - 1) * 10 + 1) 12, min (2 * 10) 12)
    ∧ paginationSummary 2 10 12 = some (11, 12)
    ∧ paginationSummary 3 10 0 = none :=
  ⟨(pagination_summary_correct 2 10 12).2 (by decide),
   by decide,
   (pagination_summary_correct 3 10 0).1 rfl⟩

/-- Embedding of the JavaScript loop `for (let i = a; i <= b; i++) pages.push(i)`:
the integers from `a` to `b` inclusive (empty when `b < a`). -/
def intRange (a b : Int) : List Int :=
  (List.range (b + 1 - a).toNat).map (fun (i : Nat) => a + (i : Int))

/-- Embedding of `getPageNumbers` in PaginationWithText.tsx lines 29-54;
`-1` stands for the pushed ellipsis marker. -/
def getPageNumbers (currentPage totalPages : Int) : List Int :=
  if totalPages ≤ 5 then intRange 1 totalPages
  else if currentPage ≤ 3 then intRange 1 4 ++ [-1, totalPages]
  else if totalPages - 2 ≤ currentPage then
    1 :: -1 :: intRange (totalPages - 3) totalPages
  else
    1 :: -1 :: (intRange (currentPage - 1) (currentPage + 1) ++ [-1, totalPages])

theorem mem_intRange {a b x : Int} : x ∈ intRange a b ↔ a ≤ x ∧ x ≤ b := by
  unfold intRange
  rw [List.mem_map]
  constructor
  · rintro ⟨i, hi, rfl⟩
    rw [List.mem_range, Int.lt_toNat] at hi
    omega
  · rintro ⟨h1, h2⟩
    refine ⟨(x - a).toNat, ?_, ?_⟩
    · rw [List.mem_range]
      omega
    · omega

theorem intRange_last_four (tp : Int) :
    intRange (tp - 3) tp = [tp - 3, tp - 2, tp - 1, tp] := by
  unfold intRange
  have h4 : (tp + 1 - (tp - 3)).toNat = 4 := by omega
  rw [h4, (by decide : List.range 4 = [0, 1, 2, 3])]
  simp only [List.map, List.cons.injEq, and_true]
  refine ⟨by omega, by omega, by omega, by omega⟩

theorem intRange_window (c : Int) :
    intRange (c - 1) (c + 1) = [c - 1, c, c + 1] := by
  unfold intRange
  have h3 : (c + 1 + 1 - (c - 1)).toNat = 3 := by omega
  rw [h3, (by decide : List.range 3 = [0, 1, 2])]
  simp only [List.map, List.cons.injEq, and_true]
  refine ⟨by omega, by omega, by omega⟩

theorem intRange_one_four : intRange 1 4 = [1, 2, 3, 4] := by decide

/-- C5: for `1 ≤ currentPage ≤ totalPages` the page-number list always
contains page 1 and page `totalPages`; with at most 5 pages it is exactly
`1..totalPages`, and otherwise it is one of the three windowed shapes
(first 4 + ellipsis + last for `currentPage ≤ 3`; first + ellipsis + last 4
for `currentPage ≥ totalPages - 2`; first + ellipsis + the window around
`currentPage` + ellipsis + last in the middle). -/
theorem getPageNumbers_correct (currentPage totalPages : Int)
    (h1 : 1 ≤ totalPages) (h2 : 1 ≤ currentPage) (h3 : currentPage ≤ totalPages) :
    (1 ∈ getPageNumbers currentPage totalPages)
    ∧ (totalPages ∈ getPageNumbers currentPage totalPages)
    ∧ (totalPages ≤ 5 →
        getPageNumbers currentPage totalPages = intRange 1 totalPages)
    ∧ (5 < totalPages →
        (currentPage ≤ 3 →
          getPageNumbers currentPage totalPages = [1, 2, 3, 4, -1, totalPages])
        ∧ (totalPages - 2 ≤ currentPage →
          getPageNumbers currentPage totalPages
            = [1, -1, totalPages - 3, totalPages - 2, totalPages - 1, totalPages])
        ∧ (3 < currentPage → currentPage < totalPages - 2 →
          getPageNumbers currentPage totalPages
            = [1, -1, currentPage - 1, currentPage, currentPage + 1, -1,
               totalPages])) := by
  unfold getPageNumbers
  split_ifs with c1 c2 c3
  · exact ⟨mem_intRange.mpr ⟨le_refl 1, h1⟩,
      mem_intRange.mpr ⟨h1, le_refl totalPages⟩,
      fun _ => rfl,
      fun h5 => absurd h5 (by omega)⟩
  · refine ⟨?_, ?_, fun h5 => absurd h5 c1, fun _ => ⟨fun _ => ?_, ?_, ?_⟩⟩
    · rw [intRange_one_four]; simp
    · simp
    · rw [intRange_one_four]
      rfl
    · intro hc; omega
    · intro hc _; omega
  · refine ⟨?_, ?_, fun h5 => absurd h5 c1, fun _ => ⟨?_, fun _ => ?_, ?_⟩⟩
    · simp
    · rw [intRange_last_four]; simp
    · intro hc; omega
    · rw [intRange_last_four]
    · intro _ hc; omega
  · refine ⟨?_, ?_, fun h5 => absurd h5 c1, fun _ => ⟨?_, ?_, fun _ _ => ?_⟩⟩
    · simp
    · simp
    · intro hc; exact absurd hc c2
    · intro hc; exact absurd hc c3
    · rw [intRange_window]
      rfl

/-- Witness for C5 at the middle shape: page 5 of 10 yields
first + ellipsis + the 4..6 window + ellipsis + last. -/
theorem getPageNumbers_correct_witness :
    getPageNumbers 5 10 = [1, -1, 4, 5, 6, -1, 10]
    ∧ (1 : Int) ∈ getPageNumbers 5 10
    ∧ (10 : Int) ∈ getPageNumbers 5 10 :=
  ⟨((getPageNumbers_correct 5 10 (by decide) (by decide)
      (by decide)).2.2.2 (by decide)).2.2 (by decide) (by decide),
   (getPageNumbers_correct 5 10 (by decide) (by decide) (by decide)).1,
   (getPageNumbers_correct 5 10 (by decide) (by decide) (by decide)).2.1⟩

/-- The three user roles of the application. -/
inductive Role where
  | SuperAdmin
  | Admin
  | Staff
deriving DecidableEq

/-- Privilege rank used to state the spec's hierarchy: Staff < Admin < SuperAdmin. -/
def roleRank : Role → Nat
  | Role.Staff => 0
  | Role.Admin => 1
  | Role.SuperAdmin => 2

/-- Embedding of `canEditUser` in UserList.tsx lines 36-43, as a pure
function of the acting user's role and id and the target user's role and id:
SuperAdmin may always edit; Admin may edit any non-SuperAdmin; Staff may
edit only themselves. -/
def canEditUser (actingRole : Role) (actingId : Nat)
    (targetRole : Role) (targetId : Nat) : Bool :=
  if actingRole = Role.SuperAdmin then true
  else if actingRole = Role.Admin then decide (targetRole ≠ Role.SuperAdmin)
  else decide (actingId = targetId)

/-- C6: the mutation-permission predicate realises the spec's role policy:
a non-baseline role acts exactly on targets of lower or equal rank (so
SuperAdmin, the highest role, acts on itself and everything below), while
the baseline Staff role acts exactly on targets whose identity equals the
acting identity. -/
theorem canEditUser_policy (actingRole : Role) (actingId : Nat)
    (targetRole : Role) (targetId : Nat) :
    (actingRole ≠ Role.Staff →
      (canEditUser actingRole actingId targetRole targetId = true
        ↔ roleRank targetRole ≤ roleRank actingRole))
    ∧ (actingRole = Role.Staff →
      (canEditUser actingRole actingId targetRole targetId = true
        ↔ actingId = targetId)) := by
  constructor
  · intro hne
    cases actingRole <;> cases targetRole <;>
      simp [canEditUser, roleRank] at hne ⊢
  · intro he
    subst he
    cases targetRole <;> simp [canEditUser, roleRank]

/-- Witness for C6: an Admin (id 1) may edit a Staff target (id 2) but a
Staff actor (id 2) may not edit the Admin (id 1). -/
theorem canEditUser_policy_witness :
    canEditUser Role.Admin 1 Role.Staff 2 = true
    ∧ canEditUser Role.Staff 2 Role.Admin 1 = false :=
  ⟨(canEditUser_policy Role.Admin 1 Role.Staff 2).1 (by decide) |>.mpr (by decide),
   by
    have h := (canEditUser_policy Role.Staff 2 Role.Admin 1).2 rfl
    cases hc : canEditUser Role.Staff 2 Role.Admin 1
    · rfl
    · exact absurd (h.mp hc) (by decide)⟩

/-- Embedding of the previous-page control of PublicLandingPage
(LandingPage.tsx lines 241-249): the button exists only when
`currentPage > 0` and then sets `Math.max(0, p - 1)`; otherwise nothing
can happen. -/
def landingPrev (currentPage : Int) : Int :=
  if 0 < currentPage then max 0 (currentPage - 1) else currentPage

/-- Embedding of the next-page control of PublicLandingPage
(LandingPage.tsx lines 287-297): the button exists only when
`currentPage < totalPages - 1` and then sets `Math.min(totalPages - 1, p + 1)`. -/
def landingNext (totalPages currentPage : Int) : Int :=
  if currentPage < totalPages - 1 then min (totalPages - 1) (currentPage + 1)
  else currentPage

/-- Embedding of the jump-to-page controls of PublicLandingPage
(LandingPage.tsx lines 218-231 and 253-270): one button per index
`0 ≤ n < totalPages`, each setting `currentPage` to its index; no other
jump target is reachable. -/
def landingJump (totalPages currentPage n : Int) : Int :=
  if 0 ≤ n ∧ n < totalPages then n else currentPage

/-- Embedding of the previous-page control of EpaperView
(EpaperView.tsx lines 150-158): the navigation bar renders only when
`totalPages > 1` and the button is disabled at `currentPage === 0`;
when enabled it sets `Math.max(0, prev - 1)`. -/
def epaperPrev (totalPages currentPage : Int) : Int :=
  if 1 < totalPages ∧ currentPage ≠ 0 then max 0 (currentPage - 1)
  else currentPage

/-- Embedding of the next-page control of EpaperView
(EpaperView.tsx lines 180-188): rendered only when `totalPages > 1`,
disabled at `currentPage === totalPages - 1`, else
`Math.min(totalPages - 1, prev + 1)`. -/
def epaperNext (totalPages currentPage : Int) : Int :=
  if 1 < totalPages ∧ currentPage ≠ totalPages - 1 then
    min (totalPages - 1) (currentPage + 1)
  else currentPage

/-- Embedding of the jump controls of EpaperView (EpaperView.tsx lines
164-177 and 217-245): dots and thumbnails render only when `totalPages > 1`,
one per index `0 ≤ n < totalPages`. -/
def epaperJump (totalPages currentPage n : Int) : Int :=
  if 1 < totalPages ∧ 0 ≤ n ∧ n < totalPages then n else currentPage

/-- C7: from any valid page of a loaded edition, every navigation operation
of both viewers lands in `[0, pageCount - 1]`; `previous` at page 0 and
`next` at the last page are no-ops; and with an empty page collection every
navigation command is a no-op. -/
theorem viewer_navigation_clamped (totalPages currentPage n : Int) :
    (0 ≤ currentPage → currentPage ≤ totalPages - 1 →
      ((0 ≤ landingPrev currentPage ∧ landingPrev currentPage ≤ totalPages - 1)
       ∧ (0 ≤ landingNext totalPages currentPage
          ∧ landingNext totalPages currentPage ≤ totalPages - 1)
       ∧ (0 ≤ landingJump totalPages currentPage n
          ∧ landingJump totalPages currentPage n ≤ totalPages - 1)
       ∧ (0 ≤ epaperPrev totalPages currentPage
          ∧ epaperPrev totalPages currentPage ≤ totalPages - 1)
       ∧ (0 ≤ epaperNext totalPages currentPage
          ∧ epaperNext totalPages currentPage ≤ totalPages - 1)
       ∧ (0 ≤ epaperJump totalPages currentPage n
          ∧ epaperJump totalPages currentPage n ≤ totalPages - 1))
      ∧ (currentPage = 0 →
          landingPrev currentPage = currentPage
          ∧ epaperPrev totalPages currentPage = currentPage)
      ∧ (currentPage = totalPages - 1 →
          landingNext totalPages currentPage = currentPage
          ∧ epaperNext totalPages currentPage = currentPage))
    ∧ (totalPages = 0 → 0 ≤ currentPage →
        landingPrev 0 = 0
        ∧ landingNext totalPages currentPage = currentPage
        ∧ landingJump totalPages currentPage n = currentPage
        ∧ epaperPrev totalPages currentPage = currentPage
        ∧ epaperNext totalPages currentPage = currentPage
        ∧ epaperJump totalPages currentPage n = currentPage) := by
  constructor
  · intro h0 h1
    refine ⟨⟨?_, ?_, ?_, ?_, ?_, ?_⟩, ?_, ?_⟩
    · unfold landingPrev; split <;> omega
    · unfold landingNext; split <;> omega
    · unfold landingJump; split <;> omega
    · unfold epaperPrev; split <;> omega
    · unfold epaperNext; split <;> omega
    · unfold epaperJump; split <;> omega
    · intro he
      subst he
      constructor
      · rfl
      · unfold epaperPrev; split <;> omega
    · intro he
      constructor
      · unfold landingNext; split <;> omega
      · unfold epaperNext; split <;> omega
  · intro he hc
    subst he
    refine ⟨rfl, ?_, ?_, ?_, ?_, ?_⟩
    · unfold landingNext; split <;> omega
    · unfold landingJump; split <;> omega
    · unfold epaperPrev; split <;> omega
    · unfold epaperNext; split <;> omega
    · unfold epaperJump; split <;> omega

/-- Witness for C7: on a 4-page edition, previous from page 0 stays at 0,
next from page 3 stays at 3, and with an empty collection next is a no-op. -/
theorem viewer_navigation_clamped_witness :
    (landingPrev 0 = 0 ∧ epaperPrev 4 0 = 0)
    ∧ (landingNext 4 3 = 3 ∧ epaperNext 4 3 = 3)
    ∧ landingNext 0 0 = 0 :=
  ⟨((viewer_navigation_clamped 4 0 2).1 (by decide) (by decide)).2.1 rfl,
   ((viewer_navigation_clamped 4 3 2).1 (by decide) (by decide)).2.2 (by decide),
   ((viewer_navigation_clamped 0 0 0).2 rfl (by decide)).2.1⟩

/-- State of the `useSearch` debounce (src/unnamed/part_001 lines 20-30):
the immediately updated `searchQuery`, the `debouncedQuery` actually used by
the filter memo, and the pending `setTimeout` timer, embedded as the number
of remaining time units (ticks) before it fires. -/
structure SearchState where
  searchQuery : Str
  debouncedQuery : Str
  timer : Option Nat
deriving DecidableEq

/-- An interaction with the debounce: a query edit, or one elapsing time unit. -/
inductive SearchEvent where
  | edit (q : Str)
  | tick
deriving DecidableEq

/-- One step of the debounce.  An edit updates `searchQuery` at once and the
effect clears the pending timeout and starts a fresh `delay`-tick one
(lines 24-30); a tick counts a pending timer down, and on expiry the timeout
body copies `searchQuery` into `debouncedQuery`, which recomputes the
filter.  The second component counts those filter recomputations (0 or 1). -/
def stepSearch (delay : Nat) (s : SearchState) :
    SearchEvent → SearchState × Nat
  | SearchEvent.edit q => ({ s with searchQuery := q, timer := some delay }, 0)
  | SearchEvent.tick =>
    match s.timer with
    | none => (s, 0)
    | some r =>
      if r ≤ 1 then
        ({ s with debouncedQuery := s.searchQuery, timer := none }, 1)
      else
        ({ s with timer := some (r - 1) }, 0)

/-- Run a sequence of events, accumulating the filter-recomputation count. -/
def runSearch (delay : Nat) (s : SearchState) :
    List SearchEvent → SearchState × Nat
  | [] => (s, 0)
  | e :: es =>
    ((runSearch delay (stepSearch delay s e).1 es).1,
     (stepSearch delay s e).2 + (runSearch delay (stepSearch delay s e).1 es).2)

theorem runSearch_append (delay : Nat) (s : SearchState)
    (l1 l2 : List SearchEvent) :
    runSearch delay s (l1 ++ l2)
      = ((runSearch delay (runSearch delay s l1).1 l2).1,
         (runSearch delay s l1).2 + (runSearch delay (runSearch delay s l1).1 l2).2) := by
  induction l1 generalizing s with
  | nil => simp [runSearch]
  | cons e es ih =>
    simp [runSearch, ih, Nat.add_assoc]

theorem runSearch_ticks_lt (delay : Nat) (s : SearchState) (k r : Nat)
    (hs : s.timer = some r) (hk : k < r) :
    runSearch delay s (List.replicate k SearchEvent.tick)
      = ({ s with timer := some (r - k) }, 0) := by
  induction k generalizing s r with
  | zero =>
    obtain ⟨sq, dq, t⟩ := s
    simp only at hs
    simp [runSearch, hs]
  | succ k ih =>
    rw [List.replicate_succ]
    simp only [runSearch, stepSearch, hs]
    rw [if_neg (by omega)]
    dsimp only
    rw [ih { s with timer := some (r - 1) } (r - 1) rfl (by omega)]
    have hr : r - 1 - k = r - (k + 1) := by omega
    rw [hr]
    rfl

theorem runSearch_ticks_fire (delay : Nat) (s : SearchState) (r : Nat)
    (hs : s.timer = some r) (hr : 1 ≤ r) :
    runSearch delay s (List.replicate r SearchEvent.tick)
      = ({ s with debouncedQuery := s.searchQuery, timer := none }, 1) := by
  induction r generalizing s with
  | zero => omega
  | succ r ih =>
    rw [List.replicate_succ]
    rcases Nat.eq_zero_or_pos r with h0 | hpos
    · subst h0
      simp [runSearch, stepSearch, hs]
    · simp only [runSearch, stepSearch, hs]
      rw [if_neg (by omega)]
      dsimp only
      rw [Nat.add_sub_cancel]
      rw [ih { s with timer := some r } rfl hpos]
      rfl

/-- The event trace of a typing burst: each `(q, g)` in `bursts` is an edit
immediately followed by `g` elapsed time units, and after the final edit the
user pauses for a full quiet period of `delay` units. -/
def burstTrace (bursts : List (Str × Nat)) (qLast : Str) (delay : Nat) :
    List SearchEvent :=
  (bursts.map (fun p => SearchEvent.edit p.1 :: List.replicate p.2 SearchEvent.tick)).flatten
    ++ (SearchEvent.edit qLast :: List.replicate delay SearchEvent.tick)

theorem runSearch_bursts_no_fire (delay : Nat) (s : SearchState)
    (bursts : List (Str × Nat)) (hgaps : ∀ p ∈ bursts, p.2 < delay) :
    (runSearch delay s
      ((bursts.map (fun p => SearchEvent.edit p.1 :: List.replicate p.2 SearchEvent.tick)).flatten)).2
      = 0 := by
  induction bursts generalizing s with
  | nil => simp [runSearch]
  | cons p ps ih =>
    rw [List.map_cons, List.flatten_cons, List.cons_append]
    simp only [runSearch, stepSearch]
    rw [runSearch_append, runSearch_ticks_lt delay _ p.2 delay rfl
      (hgaps p (List.mem_cons_self p ps))]
    simp only
    rw [ih _ (fun q hq => hgaps q (List.mem_cons_of_mem p hq))]

/-- C3: within a typing burst whose pauses are all shorter than the quiet
period, the externally visible query updates immediately on each edit, and
the debounced query (hence the filter) is updated exactly once over the
whole trace, with the final query's value, after the quiet period elapses. -/
theorem useSearch_debounce (delay : Nat) (s : SearchState)
    (bursts : List (Str × Nat)) (qLast : Str)
    (hdelay : 1 ≤ delay) (hgaps : ∀ p ∈ bursts, p.2 < delay) :
    (∀ q, (stepSearch delay s (SearchEvent.edit q)).1.searchQuery = q)
    ∧ runSearch delay s (burstTrace bursts qLast delay)
        = ({ searchQuery := qLast, debouncedQuery := qLast, timer := none }, 1) := by
  refine ⟨fun q => rfl, ?_⟩
  unfold burstTrace
  rw [runSearch_append]
  set s1 := (runSearch delay s
    ((bursts.map (fun p => SearchEvent.edit p.1 :: List.replicate p.2 SearchEvent.tick)).flatten)).1
  have hsuffix :
      runSearch delay s1 (SearchEvent.edit qLast :: List.replicate delay SearchEvent.tick)
        = ({ searchQuery := qLast, debouncedQuery := qLast, timer := none }, 1) := by
    simp only [runSearch, stepSearch]
    rw [runSearch_ticks_fire delay _ delay rfl hdelay]
    rfl
  rw [hsuffix, runSearch_bursts_no_fire delay s bursts hgaps]
  rfl

/-- Witness for C3: with a quiet period of 2 units, the edits "a", "ab",
"abc" issued 1 unit apart debounce to a single filter application with
"abc". -/
theorem useSearch_debounce_witness :
    runSearch 2 ⟨[], [], none⟩
        (burstTrace [("a".toList, 1), ("ab".toList, 1)] "abc".toList 2)
      = ({ searchQuery := "abc".toList, debouncedQuery := "abc".toList,
           timer := none }, 1)
    ∧ (1 : Nat) ≤ 2 :=
  ⟨(useSearch_debounce 2 ⟨[], [], none⟩ [("a".toList, 1), ("ab".toList, 1)]
      "abc".toList (by decide) (by decide)).2,
   by decide⟩

/-- The visible state written by `loadEpaper` in LandingPage.tsx lines
84-107: the displayed edition (identified by a numeric tag), the viewer
page index, and the loading flag. -/
structure LandingState where
  epaper : Option Nat
  currentPage : Int
  loading : Bool
deriving DecidableEq

/-- An asynchronous-load event on the landing page: `dispatch` is the
synchronous start of `loadEpaper` (`setLoading(true)`), and `resolve d` is
the continuation run when the awaited `getEpaperByDate` promise for
edition `d` settles successfully (`setEpaper(data); setCurrentPage(0)`,
then `setLoading(false)` in `finally`). -/
inductive LoadEvent where
  | dispatch
  | resolve (d : Nat)
deriving DecidableEq

/-- Embedding of the state updates of `loadEpaper`: the source installs no
cancellation flag or request guard, so a resolving continuation writes the
state unconditionally, whichever request it belongs to. -/
def stepLanding (s : LandingState) : LoadEvent → LandingState
  | LoadEvent.dispatch => { s with loading := true }
  | LoadEvent.resolve d =>
    { epaper := some d, currentPage := 0, loading := false }

/-- Run a sequence of load events against the landing-page state. -/
def runLanding (s : LandingState) (es : List LoadEvent) : LandingState :=
  es.foldl stepLanding s

/-- C8 (failing input): the user picks date A (dispatching load 1) and then
quickly date B (dispatching load 2) before load 1 resolves; load 2 — the
newer request — resolves first and load 1 resolves last.  With no
cancellation guard in `loadEpaper`, the older request's continuation
overwrites the newer result: the final visible edition is 1, not 2. -/
theorem landingPage_stale_load_wins :
    runLanding ⟨none, 0, false⟩
        [LoadEvent.dispatch, LoadEvent.dispatch,
         LoadEvent.resolve 2, LoadEvent.resolve 1]
      = ⟨some 1, 0, false⟩
    ∧ (⟨some 1, 0, false⟩ : LandingState) ≠ ⟨some 2, 0, false⟩ :=
  ⟨rfl, by decide⟩

/-- The form fields handled by `UserRegister` (src/unnamed/part_000). -/
structure FormUser where
  fullName : Str
  email : Str
  userName : Str
  password : Str
  passwordConfirm : Str
deriving DecidableEq

/-- The per-field error object produced by `validate`. -/
structure Errors where
  fullName : Option Str
  email : Option Str
  userName : Option Str
  password : Option Str
  passwordConfirm : Option Str
deriving DecidableEq

def msgFullNameRequired : Str := "Full name is required".toList

def msgEmailRequired : Str := "Email is required".toList

def msgEmailInvalid : Str := "Email is invalid".toList

def msgUserNameRequired : Str := "Username is required".toList

def msgPasswordRequired : Str := "Password is required".toList

def msgPasswordShort : Str := "Password must be at least 6 characters".toList

def msgConfirmRequired : Str := "Confirm password is required".toList

def msgConfirmPlease : Str := "Please confirm your password".toList

def msgMismatch : Str := "Passwords do not match".toList

/-- A character admitted by the bracket class of the email test: anything
except whitespace and the at sign. -/
def emailChar (c : Char) : Bool := !c.isWhitespace && !(c == '@')

/-- Embedding of the test `/^[^\s@]+@[^\s@]+\.[^\s@]+$/.test(email)` of
`validate` (src/unnamed/part_000 line 150): one or more admitted characters,
an at sign, then admitted characters containing a dot that is neither the
first nor the last character of the tail. -/
def emailValid (cs : Str) : Bool :=
  let before := cs.takeWhile (fun c => !(c == '@'))
  match cs.dropWhile (fun c => !(c == '@')) with
  | [] => false
  | _ :: rest =>
    !before.isEmpty && before.all emailChar
      && !rest.isEmpty && rest.all emailChar
      && ((rest.drop 1).dropLast.contains '.')

/-- Embedding of `validate` in UserRegister (src/unnamed/part_000 lines
139-188): required full name; required, well-shaped email; username
required only on create; password required with length at least 6 on
create, optional on update but length-checked and confirm-checked when
non-empty; confirm must be present and equal whenever a password is given. -/
def validate (isEditing : Bool) (u : FormUser) : Errors :=
  { fullName :=
      if (strTrim u.fullName).isEmpty then some msgFullNameRequired else none
  , email :=
      if (strTrim u.email).isEmpty then some msgEmailRequired
      else if !emailValid (strTrim u.email) then some msgEmailInvalid
      else none
  , userName :=
      if !isEditing && (strTrim u.userName).isEmpty then some msgUserNameRequired
      else none
  , password :=
      if !isEditing then
        if u.password.isEmpty then some msgPasswordRequired
        else if u.password.length < 6 then some msgPasswordShort
        else none
      else
        if !u.password.isEmpty && u.password.length < 6 then some msgPasswordShort
        else none
  , passwordConfirm :=
      if !isEditing then
        if u.passwordConfirm.isEmpty then some msgConfirmRequired
        else if u.password ≠ u.passwordConfirm then some msgMismatch
        else none
      else
        if !u.password.isEmpty then
          if u.passwordConfirm.isEmpty then some msgConfirmPlease
          else if u.password ≠ u.passwordConfirm then some msgMismatch
          else none
        else none }

/-- Embedding of `Object.keys(validationErrors).length > 0`. -/
def hasErrors (e : Errors) : Bool :=
  e.fullName.isSome || e.email.isSome || e.userName.isSome
    || e.password.isSome || e.passwordConfirm.isSome

/-- Embedding of `Object.values(validationErrors).join("\n")`: every present
error message, in the insertion order of `validate`. -/
def errorMessages (e : Errors) : List Str :=
  e.fullName.toList ++ e.email.toList ++ e.userName.toList
    ++ e.password.toList ++ e.passwordConfirm.toList

/-- The update payload built by `handleSubmit` on the edit path
(src/unnamed/part_000 lines 209-221). -/
structure UpdateUserPayload where
  fullName : Str
  email : Str
  password : Option Str
deriving DecidableEq

/-- The create payload built by `handleSubmit` on the create path
(src/unnamed/part_000 lines 228-238). -/
structure CreateUserPayload where
  fullName : Str
  email : Str
  userName : Str
  password : Str
deriving DecidableEq

/-- Outcome of a submission: blocked locally with the full error object and
the joined toast messages, or exactly one network request. -/
inductive SubmitOutcome where
  | blocked (errs : Errors) (toast : List Str)
  | putUser (p : UpdateUserPayload)
  | postUser (p : CreateUserPayload)
deriving DecidableEq

/-- Embedding of `handleSubmit` (src/unnamed/part_000 lines 191-204 and
206-245): validation runs first; any error blocks the submission before any
network call and reports every message; otherwise exactly one PUT (edit)
or POST (create) request is issued. -/
def handleSubmit (isEditing : Bool) (u : FormUser) : SubmitOutcome :=
  let errs := validate isEditing u
  if hasErrors errs then SubmitOutcome.blocked errs (errorMessages errs)
  else if isEditing then
    SubmitOutcome.putUser
      { fullName := strTrim u.fullName
      , email := strTrim u.email
      , password :=
          if !(strTrim u.password).isEmpty then some u.password else none }
  else
    SubmitOutcome.postUser
      { fullName := strTrim u.fullName
      , email := strTrim u.email
      , userName := strTrim u.userName
      , password := u.password }

/-- C9: local validation is evaluated before any network call; any violation
blocks the submission entirely — no network request — carrying the complete
error object and every violation message at once (an all-empty create form
reports all 5 violations, not just the first); a violation-free form issues
exactly one network request. -/
theorem userForm_validation_blocks (isEditing : Bool) (u : FormUser) :
    (hasErrors (validate isEditing u) = true →
      handleSubmit isEditing u
        = SubmitOutcome.blocked (validate isEditing u)
            (errorMessages (validate isEditing u)))
    ∧ (hasErrors (validate isEditing u) = false →
        (isEditing = true →
          handleSubmit isEditing u = SubmitOutcome.putUser
            { fullName := strTrim u.fullName
            , email := strTrim u.email
            , password :=
                if !(strTrim u.password).isEmpty then some u.password else none })
        ∧ (isEditing = false →
          handleSubmit isEditing u = SubmitOutcome.postUser
            { fullName := strTrim u.fullName
            , email := strTrim u.email
            , userName := strTrim u.userName
            , password := u.password }))
    ∧ (errorMessages (validate false ⟨[], [], [], [], []⟩)).length = 5 := by
  refine ⟨?_, ?_, by decide⟩
  · intro h
    simp [handleSubmit, h]
  · intro h
    constructor
    · intro he
      subst he
      simp [handleSubmit, h]
    · intro he
      subst he
      simp [handleSubmit, h]

/-- Witness for C9: a create form with empty name, malformed email and
mismatched short password is blocked with its full error object, while a
well-formed create form issues exactly the POST request. -/
theorem userForm_validation_blocks_witness :
    handleSubmit false ⟨[], "bad".toList, "jo".toList, "123".toList, "1234".toList⟩
      = SubmitOutcome.blocked
          (validate false ⟨[], "bad".toList, "jo".toList, "123".toList, "1234".toList⟩)
          (errorMessages
            (validate false ⟨[], "bad".toList, "jo".toList, "123".toList, "1234".toList⟩))
    ∧ handleSubmit false
        ⟨"John".toList, "a@b.cd".toList, "john".toList,
         "secret1".toList, "secret1".toList⟩
      = SubmitOutcome.postUser
          { fullName := strTrim "John".toList
          , email := strTrim "a@b.cd".toList
          , userName := strTrim "john".toList
          , password := "secret1".toList } :=
  ⟨(userForm_validation_blocks false
      ⟨[], "bad".toList, "jo".toList, "123".toList, "1234".toList⟩).1 (by decide),
   ((userForm_validation_blocks false
      ⟨"John".toList, "a@b.cd".toList, "john".toList,
       "secret1".toList, "secret1".toList⟩).2.1 (by decide)).2 rfl⟩

/-- The state written by the user-loading effect of UserRegister
(src/unnamed/part_000 lines 104-136), which — unlike `loadEpaper` — guards
its continuation with a `cancelled` flag set by the effect cleanup. -/
structure GuardedLoadState where
  user : Option Nat
  cancelled : Bool
deriving DecidableEq

/-- Embedding of the guarded continuation `if (cancelled) return; setUser(...)`
together with the cleanup `cancelled = true`. -/
def stepGuarded (s : GuardedLoadState) : LoadEvent → GuardedLoadState
  | LoadEvent.dispatch => { s with cancelled := true }
  | LoadEvent.resolve d =>
    if s.cancelled then s else { s with user := some d }

/-- On the guarded path, a continuation whose request was superseded (its
cleanup ran, setting the flag) can no longer overwrite the visible state:
the mechanism the spec prescribes, present only in UserRegister. -/
theorem userRegister_guard_blocks_stale (s : GuardedLoadState) (d : Nat)
    (h : s.cancelled = true) :
    stepGuarded s (LoadEvent.resolve d) = s := by
  simp [stepGuarded, h]
